import Mathlib

/-!
Verification of the change-detection and batched-upload pipeline of
`remote-sync.js` (a one-way local-to-remote file synchronizer built on a
filesystem watcher and an SFTP client).

The source is shallowly embedded: JavaScript objects used as string-keyed
maps become association lists, the module-level mutable variables
(`hashes`, `updates`, `timeout`, `watcher_ready`, `conn`) become fields of
an explicit state record, and the asynchronous callbacks (watcher events,
timer expiry, connection-ready) become steps of an explicit event-loop
semantics over timestamped traces.
-/

set_option autoImplicit false

namespace RemoteSync

/-! ## Core string and map operations -/

/-- JS truthiness of a possibly-absent string value: `undefined` and the
empty string are falsy, every other string is truthy.  This models the
`!hashes[relativePath]` test in the change handler. -/
def truthyOpt : Option String → Bool
  | none => false
  | some s => !s.isEmpty

/-- Association-list lookup, modelling a JS object property read
(`obj[key]`, yielding `undefined` when the key is absent). -/
def lookupAssoc : List (String × String) → String → Option String
  | [], _ => none
  | e :: rest, k => if e.1 = k then some e.2 else lookupAssoc rest k

/-- Association-list update, modelling a JS object property write
(`obj[key] = v`: overwrite when the key exists, otherwise add it). -/
def setAssoc : List (String × String) → String → String → List (String × String)
  | [], k, v => [(k, v)]
  | e :: rest, k, v => if e.1 = k then (k, v) :: rest else e :: setAssoc rest k v

/-- `getRelativePath(root, fullPath)` from the source: takes
`fullPath.substring(root.length, fullPath.length)` and replaces every
backslash with a forward slash. -/
def getRelativePath (root fullPath : String) : String :=
  String.mk ((fullPath.data.drop root.data.length).map
    (fun c => if c = '\\' then '/' else c))

/-- The ledger check-and-update in the watcher change handler:

`if (!hashes[relativePath] || (hashes[relativePath] !== hash)) { hashes[relativePath] = hash; ... }`

Returns the truth value of the guard together with the ledger after the
handler ran (updated exactly when the guard held). -/
def checkAndUpdate (hashes : List (String × String)) (relativePath hash : String) :
    Bool × List (String × String) :=
  if truthyOpt (lookupAssoc hashes relativePath) = false
      ∨ lookupAssoc hashes relativePath ≠ some hash then
    (true, setAssoc hashes relativePath hash)
  else
    (false, hashes)

/-! ## Connection manager (`connectToSFTPServer`) -/

/-- The four spinner glyphs declared in `connectToSFTPServer`. -/
def spinner : List String := ["|", "/", "-", "\\"]

/-- The single retry line written on a connection error:
`"Unable to communicate with sftp server. Retrying " + spinner[attempts % 4] + "\x1b[0G"`
(the glyph is indexed by the attempt count before the post-increment). -/
def spinnerLine (attempts : Nat) : String :=
  "Unable to communicate with sftp server. Retrying "
    ++ spinner.getD (attempts % 4) "" ++ "\x1b[0G"

/-- The mutable state owned by one `Client` object built by
`connectToSFTPServer`: the `sftp_ready` flag, the local `attempts`
counter, the console lines written so far and the number of
`conn.connect(connSettings)` calls issued. -/
structure ConnState where
  sftp_ready : Bool
  attempts : Nat
  output : List String
  connectCalls : Nat
  deriving DecidableEq, Repr

/-- `connectToSFTPServer` constructs a fresh `Client`, initializes
`attempts = 0`, and calls `conn.connect(connSettings)` once before
returning. -/
def connInit : ConnState :=
  { sftp_ready := false, attempts := 0, output := [], connectCalls := 1 }

/-- The `ready` handler: `sftp_ready = true; attempts = 0`. -/
def connOnReady (s : ConnState) : ConnState :=
  { s with sftp_ready := true, attempts := 0 }

/-- The `error` handler: clears `sftp_ready`, writes one spinner line
(glyph `spinner[attempts++ % 4]`), and immediately calls
`conn.connect(connSettings)` again. -/
def connOnError (s : ConnState) : ConnState :=
  { s with
      sftp_ready := false,
      output := s.output ++ [spinnerLine s.attempts],
      attempts := s.attempts + 1,
      connectCalls := s.connectCalls + 1 }

/-! ## Uploader (the `fastPut` loop in the connection-ready callback) -/

/-- The drain loop over the accumulated `updates` object: for each
`(path ↦ relativePath)` entry it issues
`sftp.fastPut(path, remotePath + updates[path])`; a failing transfer only
runs `console.error(err)` in its callback (modelled by recording the
failing path in an error log) and never stops the loop.  The per-file
outcome is an oracle `fails`.  Returns (issued transfers, error log). -/
def drainLoop (remotePath : String) (fails : String → Bool) :
    List (String × String) → List (String × String) × List String
  | [] => ([], [])
  | e :: rest =>
    let r := drainLoop remotePath fails rest
    ((e.1, remotePath ++ e.2) :: r.1, (if fails e.1 then [e.1] else []) ++ r.2)

/-! ## Content fingerprinter (`getHash`) -/

/-- A file read stream delivered to `getHash` as a sequence of events:
data chunks, a natural end of data, or a mid-read failure. -/
inductive StreamEvent where
  | data (chunk : List Nat)
  | streamEnd
  | streamError
  deriving DecidableEq

/-- The stream events for which `getHash` registers a listener in the
source: only `"data"` and `"end"`.  There is no `"error"` listener. -/
def getHashListeners : List String := ["data", "end"]

/-- Outcome of running `getHash` over a stream: the value passed to the
callback (if the callback ever ran), and whether an event with no
registered listener escaped as an uncaught exception (Node re-throws an
`error` event that has no listener). -/
structure HashRunResult where
  callbackResult : Option String
  uncaughtException : Bool
  deriving DecidableEq, Repr

/-- Runs `getHash`'s handlers over the stream events: `data` chunks are
accumulated into the digest, `end` invokes the callback with the digest
of everything accumulated, and `error` — having no registered listener —
escapes as an uncaught exception without the callback ever running.
`digest` abstracts the md5 accumulation as a function of the chunks. -/
def runGetHash (digest : List (List Nat) → String) :
    List StreamEvent → List (List Nat) → HashRunResult
  | [], _ => { callbackResult := none, uncaughtException := false }
  | StreamEvent.data c :: rest, acc => runGetHash digest rest (acc ++ [c])
  | StreamEvent.streamEnd :: _, acc =>
    { callbackResult := some (digest acc), uncaughtException := false }
  | StreamEvent.streamError :: _, _ =>
    if "error" ∈ getHashListeners then
      { callbackResult := none, uncaughtException := false }
    else
      { callbackResult := none, uncaughtException := true }

/-! ## Event-loop semantics of the watcher pipeline

The module-level mutable variables of the script become one state record,
and the asynchronous callbacks become steps over a timestamped trace of
external occurrences: the watcher `ready` event, an `add`/`change` event
together with the hash its `getHash` callback computed, and the `ready`
signal of a connection created by the timer callback.  A due debounce
timer fires before the next occurrence is handled. -/

/-- Configuration: the local root, the remote root, and a per-file
transfer outcome oracle used by the drain loop. -/
structure Config where
  localPath : String
  remotePath : String
  fails : String → Bool

/-- External occurrences driving the event loop. -/
inductive Ev where
  | ready
  | change (path hash : String)
  | connReady (id : Nat)
  deriving DecidableEq

/-- The script's module-level mutable state, plus observation histories
(drains performed, transfers issued, errors logged). -/
structure SyncState where
  hashes : List (String × String)
  updates : List (String × String)
  timeout : Option Nat
  watcher_ready : Bool
  connsCreated : Nat
  pendingConns : List Nat
  drains : List (Nat × List (String × String))
  transfers : List (Nat × String × String)
  errorLog : List String
  deriving DecidableEq, Repr

/-- Initial state: empty ledger and batch, no timer, watcher not ready,
no connection ever constructed. -/
def initState : SyncState :=
  { hashes := [], updates := [], timeout := none, watcher_ready := false,
    connsCreated := 0, pendingConns := [], drains := [], transfers := [],
    errorLog := [] }

/-- If the armed debounce timer is due at time `t`, its callback runs
first: `conn = connectToSFTPServer()` constructs a fresh connection (its
id is the construction count) whose later `ready` event will drain the
batch.  The batch itself is untouched by the timer callback. -/
def fireTimerIfDue (t : Nat) (s : SyncState) : SyncState :=
  match s.timeout with
  | none => s
  | some tf =>
    if tf ≤ t then
      { s with
          timeout := none,
          connsCreated := s.connsCreated + 1,
          pendingConns := s.pendingConns ++ [s.connsCreated + 1] }
    else s

/-- The watcher `all` handler for an `add`/`change` event whose hash
callback produced `hash`: run the ledger check; on a real change store
the new hash, and — only when `watcher_ready` — record the path in
`updates` and re-arm the debounce timer for `t + 5000` (a `clearTimeout`
of any armed timer followed by a fresh `setTimeout` of hard-coded
5 seconds). -/
def handleChange (cfg : Config) (t : Nat) (path hash : String)
    (s : SyncState) : SyncState :=
  if (checkAndUpdate s.hashes (getRelativePath cfg.localPath path) hash).1 then
    if s.watcher_ready then
      { s with
          hashes := (checkAndUpdate s.hashes (getRelativePath cfg.localPath path) hash).2,
          updates := setAssoc s.updates path (getRelativePath cfg.localPath path),
          timeout := some (t + 5000) }
    else
      { s with
          hashes := (checkAndUpdate s.hashes (getRelativePath cfg.localPath path) hash).2 }
  else s

/-- The `ready` handler of a connection constructed by the timer
callback: inside `conn.sftp` the drain loop runs over the *current*
`updates`, and only after the loop does `updates = {}` clear the batch —
all inside one callback, with no other event interleaved. -/
def handleConnReady (cfg : Config) (t : Nat) (id : Nat) (s : SyncState) :
    SyncState :=
  if id ∈ s.pendingConns then
    let r := drainLoop cfg.remotePath cfg.fails s.updates
    { s with
        updates := [],
        pendingConns := s.pendingConns.erase id,
        drains := s.drains ++ [(t, s.updates)],
        transfers := s.transfers ++ r.1.map (fun a => (t, a.1, a.2)),
        errorLog := s.errorLog ++ r.2 }
  else s

/-- One event-loop step: a due timer fires before the occurrence at time
`t` is handled. -/
def step (cfg : Config) (s : SyncState) : Nat × Ev → SyncState
  | (t, ev) =>
    let s1 := fireTimerIfDue t s
    match ev with
    | Ev.ready => { s1 with watcher_ready := true }
    | Ev.change path hash => handleChange cfg t path hash s1
    | Ev.connReady id => handleConnReady cfg t id s1

/-- Run the pipeline from the initial state over a timestamped trace. -/
def run (cfg : Config) (trace : List (Nat × Ev)) : SyncState :=
  trace.foldl (step cfg) initState

/-- The ledger evolution alone: the fold of the check-and-update over the
change events of a trace, starting from ledger `hs`. -/
def ledgerFold (cfg : Config) (trace : List (Nat × Ev))
    (hs : List (String × String)) : List (String × String) :=
  trace.foldl
    (fun hs e =>
      match e.2 with
      | Ev.change path hash =>
        (checkAndUpdate hs (getRelativePath cfg.localPath path) hash).2
      | _ => hs) hs

/-- Path bookkeeping invariant: every batched entry maps a local path to
its relative path, and every issued transfer's destination is the remote
root concatenated with the relative path of its local source. -/
def pathsConsistent (cfg : Config) (s : SyncState) : Prop :=
  (∀ e ∈ s.updates, e.2 = getRelativePath cfg.localPath e.1) ∧
  (∀ tr ∈ s.transfers,
    tr.2.2 = cfg.remotePath ++ getRelativePath cfg.localPath tr.2.1)

/-! ## Concrete configuration, traces and states -/

/-- Local root `/proj/src`, remote root `/var/www/app`, every transfer
succeeding. -/
def cfgDemo : Config :=
  { localPath := "/proj/src", remotePath := "/var/www/app",
    fails := fun _ => false }

/-- The spec's concrete scenario: `index.html` changes at t=0 and
t=2000 within the 5000 ms window; the connection constructed when the
timer fires at t=7000 signals ready at t=7000. -/
def trace7 : List (Nat × Ev) :=
  [(0, Ev.ready),
   (0, Ev.change "/proj/src/index.html" "hashA"),
   (2000, Ev.change "/proj/src/index.html" "hashB"),
   (7000, Ev.connReady 1)]

/-- A change to `a.html` at t=0 arms the timer for t=5000; the timer
fires (handing the batch to the upload pipeline and constructing
connection 1) before the next occurrence; `b.html` changes at t=5200 —
after the hand-off; connection 1 becomes ready at t=5800 and drains. -/
def traceC2 : List (Nat × Ev) :=
  [(0, Ev.ready),
   (0, Ev.change "/proj/src/a.html" "ha"),
   (5200, Ev.change "/proj/src/b.html" "hb"),
   (5800, Ev.connReady 1)]

/-- A change at t=0 (timer fires at t=5000, constructing connection 1),
a qualifying change to `two.css` at t=5500, and connection 1 becoming
ready at t=6000 — only 500 ms after the last qualifying change. -/
def traceC4 : List (Nat × Ev) :=
  [(0, Ev.ready),
   (0, Ev.change "/proj/src/one.css" "h1"),
   (5500, Ev.change "/proj/src/two.css" "h2"),
   (6000, Ev.connReady 1)]

/-- Two separate bursts, each followed by its drain. -/
def traceC9 : List (Nat × Ev) :=
  [(0, Ev.ready),
   (0, Ev.change "/proj/src/x.js" "h1"),
   (5000, Ev.connReady 1),
   (6000, Ev.change "/proj/src/x.js" "h2"),
   (11000, Ev.connReady 2)]

/-- The two-change debounce scenario: watcher ready, then qualifying
changes to the same file at t=0 and t=4999 (window 5000 ms). -/
def firstBurstC4 : List (Nat × Ev) :=
  [(0, Ev.ready),
   (0, Ev.change "/proj/src/index.html" "hashA"),
   (4999, Ev.change "/proj/src/index.html" "hashB")]

/-- The state reached after `firstBurstC4`: both hashes recorded, one
batched path, timer armed for t=9999, no connection yet. -/
def stateC4 : SyncState :=
  { hashes := [("/index.html", "hashB")],
    updates := [("/proj/src/index.html", "/index.html")],
    timeout := some 9999,
    watcher_ready := true,
    connsCreated := 0, pendingConns := [], drains := [], transfers := [],
    errorLog := [] }

/-- A transfer-failure oracle failing exactly `two.css`. -/
def failsTwo : String → Bool := fun p => p == "/proj/src/two.css"

/-- A state with one batched path and connection 1 pending. -/
def stateW2 : SyncState :=
  { initState with
      updates := [("/proj/src/a.html", "/a.html")],
      pendingConns := [1] }

/-- The initial state after the watcher ready signal. -/
def stateW4 : SyncState :=
  { initState with watcher_ready := true }

/-- A state whose debounce timer is armed for t=3. -/
def stateW9 : SyncState :=
  { initState with timeout := some 3 }

/-! ## Lemmas about the map operations and the ledger check -/

theorem lookup_setAssoc_self (l : List (String × String)) (k v : String) :
    lookupAssoc (setAssoc l k v) k = some v := by
  induction l with
  | nil => simp [setAssoc, lookupAssoc]
  | cons e rest ih =>
    by_cases h : e.1 = k
    · simp [setAssoc, h, lookupAssoc]
    · simp [setAssoc, h, lookupAssoc, ih]

theorem lookup_setAssoc_ne (l : List (String × String)) (k v k' : String)
    (h : k' ≠ k) : lookupAssoc (setAssoc l k v) k' = lookupAssoc l k' := by
  induction l with
  | nil =>
    simp only [setAssoc, lookupAssoc]
    rw [if_neg (Ne.symm h)]
  | cons e rest ih =>
    by_cases he : e.1 = k
    · subst he
      simp only [setAssoc, if_pos rfl, lookupAssoc]
      rw [if_neg (Ne.symm h), if_neg (Ne.symm h)]
    · simp only [setAssoc, if_neg he, lookupAssoc]
      by_cases he' : e.1 = k'
      · simp [he']
      · simp [he', ih]

theorem mem_setAssoc (l : List (String × String)) (k v : String)
    (e : String × String) (he : e ∈ setAssoc l k v) : e ∈ l ∨ e = (k, v) := by
  induction l with
  | nil =>
    simp only [setAssoc, List.mem_singleton] at he
    exact Or.inr he
  | cons a rest ih =>
    unfold setAssoc at he
    by_cases h : a.1 = k
    · rw [if_pos h] at he
      rcases List.mem_cons.mp he with h1 | h2
      · exact Or.inr h1
      · exact Or.inl (List.mem_cons_of_mem a h2)
    · rw [if_neg h] at he
      rcases List.mem_cons.mp he with h1 | h2
      · exact Or.inl (h1 ▸ List.mem_cons_self a rest)
      · rcases ih h2 with hl | hr
        · exact Or.inl (List.mem_cons_of_mem a hl)
        · exact Or.inr hr

theorem checkAndUpdate_false_snd (hs : List (String × String)) (rp h : String)
    (hf : (checkAndUpdate hs rp h).1 = false) :
    (checkAndUpdate hs rp h).2 = hs := by
  unfold checkAndUpdate at hf ⊢
  by_cases hc : truthyOpt (lookupAssoc hs rp) = false ∨ lookupAssoc hs rp ≠ some h
  · rw [if_pos hc] at hf
    exact absurd hf (by simp)
  · rw [if_neg hc]

theorem lookup_checkAndUpdate_self (hs : List (String × String)) (rp h : String) :
    lookupAssoc (checkAndUpdate hs rp h).2 rp = some h := by
  unfold checkAndUpdate
  by_cases hc : truthyOpt (lookupAssoc hs rp) = false ∨ lookupAssoc hs rp ≠ some h
  · rw [if_pos hc]
    exact lookup_setAssoc_self hs rp h
  · rw [if_neg hc]
    push_neg at hc
    exact hc.2

theorem checkAndUpdate_stored_false (hs : List (String × String)) (rp h : String)
    (hh : h ≠ "") (hst : lookupAssoc hs rp = some h) :
    checkAndUpdate hs rp h = (false, hs) := by
  unfold checkAndUpdate
  rw [if_neg]
  push_neg
  refine ⟨?_, hst⟩
  rw [hst]
  simp [truthyOpt, String.isEmpty_iff, hh]

/-! ## Lemmas about the event-loop step functions -/

theorem fireTimerIfDue_none (t : Nat) (s : SyncState) (h : s.timeout = none) :
    fireTimerIfDue t s = s := by
  unfold fireTimerIfDue
  rw [h]

theorem fireTimerIfDue_due (t : Nat) (s : SyncState) (tf : Nat)
    (htm : s.timeout = some tf) (hdue : tf ≤ t) :
    fireTimerIfDue t s
      = { s with
            timeout := none,
            connsCreated := s.connsCreated + 1,
            pendingConns := s.pendingConns ++ [s.connsCreated + 1] } := by
  unfold fireTimerIfDue
  rw [htm]
  exact if_pos hdue

theorem fireTimerIfDue_not_due (t : Nat) (s : SyncState) (tf : Nat)
    (htm : s.timeout = some tf) (hlate : ¬ tf ≤ t) :
    fireTimerIfDue t s = s := by
  unfold fireTimerIfDue
  rw [htm]
  exact if_neg hlate

theorem fireTimerIfDue_frame (t : Nat) (s : SyncState) :
    (fireTimerIfDue t s).hashes = s.hashes ∧
    (fireTimerIfDue t s).updates = s.updates ∧
    (fireTimerIfDue t s).transfers = s.transfers ∧
    (fireTimerIfDue t s).drains = s.drains ∧
    (fireTimerIfDue t s).watcher_ready = s.watcher_ready := by
  unfold fireTimerIfDue
  split
  · exact ⟨rfl, rfl, rfl, rfl, rfl⟩
  · split
    · exact ⟨rfl, rfl, rfl, rfl, rfl⟩
    · exact ⟨rfl, rfl, rfl, rfl, rfl⟩

theorem handleChange_hashes (cfg : Config) (t : Nat) (p h : String) (s : SyncState) :
    (handleChange cfg t p h s).hashes
      = (checkAndUpdate s.hashes (getRelativePath cfg.localPath p) h).2 := by
  unfold handleChange
  split
  · split
    · rfl
    · rfl
  · next hcond =>
    have hf : (checkAndUpdate s.hashes (getRelativePath cfg.localPath p) h).1 = false := by
      simpa using hcond
    rw [checkAndUpdate_false_snd _ _ _ hf]

theorem handleChange_not_ready (cfg : Config) (t : Nat) (p h : String)
    (s : SyncState) (hw : s.watcher_ready = false) :
    handleChange cfg t p h s
      = { s with
            hashes := (checkAndUpdate s.hashes (getRelativePath cfg.localPath p) h).2 } := by
  unfold handleChange
  split
  · split
    · next hr => rw [hw] at hr; exact absurd hr (by simp)
    · rfl
  · next hcond =>
    have hf : (checkAndUpdate s.hashes (getRelativePath cfg.localPath p) h).1 = false := by
      simpa using hcond
    rw [checkAndUpdate_false_snd _ _ _ hf]

theorem handleChange_frame (cfg : Config) (t : Nat) (p h : String) (s : SyncState) :
    (handleChange cfg t p h s).drains = s.drains ∧
    (handleChange cfg t p h s).transfers = s.transfers ∧
    (handleChange cfg t p h s).pendingConns = s.pendingConns ∧
    (handleChange cfg t p h s).connsCreated = s.connsCreated ∧
    (handleChange cfg t p h s).watcher_ready = s.watcher_ready := by
  unfold handleChange
  split
  · split
    · exact ⟨rfl, rfl, rfl, rfl, rfl⟩
    · exact ⟨rfl, rfl, rfl, rfl, rfl⟩
  · exact ⟨rfl, rfl, rfl, rfl, rfl⟩

theorem handleChange_updates (cfg : Config) (t : Nat) (p h : String) (s : SyncState) :
    (handleChange cfg t p h s).updates = s.updates ∨
    (handleChange cfg t p h s).updates
      = setAssoc s.updates p (getRelativePath cfg.localPath p) := by
  unfold handleChange
  split
  · split
    · exact Or.inr rfl
    · exact Or.inl rfl
  · exact Or.inl rfl

theorem handleChange_stored_noop (cfg : Config) (t : Nat) (p h : String)
    (s : SyncState) (hh : h ≠ "")
    (hst : lookupAssoc s.hashes (getRelativePath cfg.localPath p) = some h) :
    handleChange cfg t p h s = s := by
  have hcu := checkAndUpdate_stored_false s.hashes
    (getRelativePath cfg.localPath p) h hh hst
  unfold handleChange
  rw [hcu]
  simp

theorem handleConnReady_hashes (cfg : Config) (t id : Nat) (s : SyncState) :
    (handleConnReady cfg t id s).hashes = s.hashes := by
  unfold handleConnReady
  split
  · rfl
  · rfl

theorem handleConnReady_not_pending (cfg : Config) (t id : Nat) (s : SyncState)
    (h : id ∉ s.pendingConns) : handleConnReady cfg t id s = s := by
  unfold handleConnReady
  rw [if_neg h]

theorem handleConnReady_updates (cfg : Config) (t id : Nat) (s : SyncState)
    (hid : id ∈ s.pendingConns) : (handleConnReady cfg t id s).updates = [] := by
  unfold handleConnReady
  rw [if_pos hid]

theorem handleConnReady_drains (cfg : Config) (t id : Nat) (s : SyncState)
    (hid : id ∈ s.pendingConns) :
    (handleConnReady cfg t id s).drains = s.drains ++ [(t, s.updates)] := by
  unfold handleConnReady
  rw [if_pos hid]

theorem handleConnReady_transfers (cfg : Config) (t id : Nat) (s : SyncState)
    (hid : id ∈ s.pendingConns) :
    (handleConnReady cfg t id s).transfers
      = s.transfers
          ++ (drainLoop cfg.remotePath cfg.fails s.updates).1.map
              (fun a => (t, a.1, a.2)) := by
  unfold handleConnReady
  rw [if_pos hid]

theorem step_change_eq (cfg : Config) (s : SyncState) (t : Nat) (p h : String) :
    step cfg s (t, Ev.change p h) = handleChange cfg t p h (fireTimerIfDue t s) := rfl

theorem step_connReady_eq (cfg : Config) (s : SyncState) (t id : Nat) :
    step cfg s (t, Ev.connReady id) = handleConnReady cfg t id (fireTimerIfDue t s) := rfl

theorem run_append_single (cfg : Config) (l : List (Nat × Ev)) (e : Nat × Ev) :
    run cfg (l ++ [e]) = step cfg (run cfg l) e := by
  unfold run
  rw [List.foldl_append]
  rfl

/-- Before the watcher `ready` event arrives, a trace only ever updates
the ledger: the batch, timer, connections, drains and transfers all stay
at their initial values. -/
theorem foldl_step_no_ready (cfg : Config) (trace : List (Nat × Ev)) :
    ∀ s : SyncState, s.watcher_ready = false → s.timeout = none →
      s.pendingConns = [] →
      (∀ e ∈ trace, e.2 ≠ Ev.ready) →
      trace.foldl (step cfg) s
        = { s with hashes := ledgerFold cfg trace s.hashes } := by
  induction trace with
  | nil =>
    intro s _ _ _ _
    rfl
  | cons e rest ih =>
    intro s hw ht hp hnr
    obtain ⟨t, ev⟩ := e
    rw [List.foldl_cons]
    have hnr' : ∀ e ∈ rest, e.2 ≠ Ev.ready :=
      fun e he => hnr e (List.mem_cons_of_mem _ he)
    cases ev with
    | ready =>
      exact absurd rfl (hnr (t, Ev.ready) (List.mem_cons_self _ _))
    | change p h =>
      rw [step_change_eq, fireTimerIfDue_none t s ht,
        handleChange_not_ready cfg t p h s hw]
      rw [ih { s with
                hashes := (checkAndUpdate s.hashes
                  (getRelativePath cfg.localPath p) h).2 } hw ht hp hnr']
      rfl
    | connReady id =>
      have hnp : handleConnReady cfg t id s = s :=
        handleConnReady_not_pending cfg t id s (by rw [hp]; simp)
      rw [step_connReady_eq, fireTimerIfDue_none t s ht, hnp,
        ih s hw ht hp hnr']
      rfl

/-! ## Lemmas about the drain loop -/

theorem drainLoop_fst (remotePath : String) (fails : String → Bool)
    (updates : List (String × String)) :
    (drainLoop remotePath fails updates).1
      = updates.map (fun e => (e.1, remotePath ++ e.2)) := by
  induction updates with
  | nil => rfl
  | cons e rest ih => simp [drainLoop, ih]

theorem drainLoop_snd (remotePath : String) (fails : String → Bool)
    (updates : List (String × String)) :
    (drainLoop remotePath fails updates).2
      = (updates.filter (fun e => fails e.1)).map Prod.fst := by
  induction updates with
  | nil => rfl
  | cons e rest ih =>
    by_cases h : fails e.1
    · simp [drainLoop, ih, List.filter_cons, h]
    · simp [drainLoop, ih, List.filter_cons, h]

/-! ## The path-consistency invariant -/

theorem pathsConsistent_fireTimer (cfg : Config) (t : Nat) (s : SyncState)
    (h : pathsConsistent cfg s) : pathsConsistent cfg (fireTimerIfDue t s) := by
  obtain ⟨hu, htr⟩ := h
  constructor
  · intro e he
    exact hu e (by rwa [(fireTimerIfDue_frame t s).2.1] at he)
  · intro tr hmem
    exact htr tr (by rwa [(fireTimerIfDue_frame t s).2.2.1] at hmem)

theorem pathsConsistent_step (cfg : Config) (s : SyncState) (e : Nat × Ev)
    (h : pathsConsistent cfg s) : pathsConsistent cfg (step cfg s e) := by
  obtain ⟨t, ev⟩ := e
  have h1 := pathsConsistent_fireTimer cfg t s h
  cases ev with
  | ready =>
    exact ⟨fun e he => h1.1 e he, fun tr hmem => h1.2 tr hmem⟩
  | change p hsh =>
    rw [step_change_eq]
    constructor
    · intro e he
      rcases handleChange_updates cfg t p hsh (fireTimerIfDue t s) with hsame | hset
      · exact h1.1 e (by rwa [hsame] at he)
      · rw [hset] at he
        rcases mem_setAssoc _ _ _ e he with hold | hnew
        · exact h1.1 e hold
        · rw [hnew]
    · intro tr hmem
      rw [(handleChange_frame cfg t p hsh (fireTimerIfDue t s)).2.1] at hmem
      exact h1.2 tr hmem
  | connReady id =>
    rw [step_connReady_eq]
    by_cases hid : id ∈ (fireTimerIfDue t s).pendingConns
    · constructor
      · intro e he
        rw [handleConnReady_updates cfg t id _ hid] at he
        exact absurd he (List.not_mem_nil e)
      · intro tr hmem
        rw [handleConnReady_transfers cfg t id _ hid] at hmem
        rcases List.mem_append.mp hmem with hold | hnew
        · exact h1.2 tr hold
        · rw [drainLoop_fst, List.map_map] at hnew
          obtain ⟨e, he, rfl⟩ := List.mem_map.mp hnew
          have he2 := h1.1 e he
          simp only [Function.comp]
          rw [he2]
    · rw [handleConnReady_not_pending cfg t id _ hid]
      exact h1

theorem pathsConsistent_run (cfg : Config) (trace : List (Nat × Ev)) :
    pathsConsistent cfg (run cfg trace) := by
  unfold run
  have hgen : ∀ (l : List (Nat × Ev)) (s : SyncState), pathsConsistent cfg s →
      pathsConsistent cfg (l.foldl (step cfg) s) := by
    intro l
    induction l with
    | nil => exact fun s h => h
    | cons e rest ih =>
      intro s h
      rw [List.foldl_cons]
      exact ih (step cfg s e) (pathsConsistent_step cfg s e h)
  refine hgen trace initState ⟨?_, ?_⟩
  · intro e he
    exact absurd he (List.not_mem_nil e)
  · intro tr hmem
    exact absurd hmem (List.not_mem_nil tr)

/-! ## C1 — the ledger check -/

/-- C1: for every `relativePath` and `newHash`, `checkAndUpdate` returns
`true` iff no fingerprint is stored for `relativePath` or the stored
fingerprint differs from `newHash`; in exactly those cases the stored
fingerprint becomes `newHash` (all other keys untouched), and on `false`
the ledger is unmodified.  The hypothesis excludes an empty-string stored
fingerprint, which cannot arise in the program: stored fingerprints are
md5 hex digests, which are never empty (JS truthiness of `""` would
otherwise diverge from the absence test). -/
theorem c1_checkAndUpdate_correct (hashes : List (String × String))
    (relativePath newHash : String)
    (hstored : lookupAssoc hashes relativePath ≠ some "") :
    ((checkAndUpdate hashes relativePath newHash).1 = true ↔
      (lookupAssoc hashes relativePath = none ∨
        lookupAssoc hashes relativePath ≠ some newHash)) ∧
    ((checkAndUpdate hashes relativePath newHash).1 = true →
      lookupAssoc (checkAndUpdate hashes relativePath newHash).2 relativePath
        = some newHash) ∧
    ((checkAndUpdate hashes relativePath newHash).1 = false →
      (checkAndUpdate hashes relativePath newHash).2 = hashes) ∧
    (∀ k : String, k ≠ relativePath →
      lookupAssoc (checkAndUpdate hashes relativePath newHash).2 k
        = lookupAssoc hashes k) := by
  unfold checkAndUpdate
  by_cases hcond : truthyOpt (lookupAssoc hashes relativePath) = false
      ∨ lookupAssoc hashes relativePath ≠ some newHash
  · rw [if_pos hcond]
    refine ⟨?_, ?_, ?_, ?_⟩
    · simp only [true_iff]
      cases hl : lookupAssoc hashes relativePath with
      | none => exact Or.inl rfl
      | some v =>
        refine Or.inr ?_
        rcases hcond with hfalsy | hne
        · rw [hl] at hfalsy
          simp only [truthyOpt, Bool.not_eq_false'] at hfalsy
          have hv : v = "" := (String.isEmpty_iff v).mp hfalsy
          exact absurd (hl.trans (congrArg some hv)) hstored
        · rw [hl] at hne
          exact hne
    · intro _
      exact lookup_setAssoc_self hashes relativePath newHash
    · intro h
      exact absurd h (by simp)
    · intro k hk
      exact lookup_setAssoc_ne hashes relativePath newHash k hk
  · rw [if_neg hcond]
    push_neg at hcond
    obtain ⟨htr, heq⟩ := hcond
    refine ⟨?_, ?_, ?_, ?_⟩
    · constructor
      · intro h
        exact absurd h (by simp)
      · intro hor
        exfalso
        rcases hor with hn | hne
        · rw [hn] at heq
          exact Option.noConfusion heq
        · exact hne heq
    · intro h
      exact absurd h (by simp)
    · intro _
      rfl
    · intro k _
      rfl

/-- Witness for C1 at a concrete ledger: `"a.html"` stores `"h1"`, a new
hash `"h2"` arrives. -/
theorem c1_checkAndUpdate_correct_witness :
    lookupAssoc [("a.html", "h1")] "a.html" ≠ some "" ∧
    (((checkAndUpdate [("a.html", "h1")] "a.html" "h2").1 = true ↔
      (lookupAssoc [("a.html", "h1")] "a.html" = none ∨
        lookupAssoc [("a.html", "h1")] "a.html" ≠ some "h2")) ∧
    ((checkAndUpdate [("a.html", "h1")] "a.html" "h2").1 = true →
      lookupAssoc (checkAndUpdate [("a.html", "h1")] "a.html" "h2").2 "a.html"
        = some "h2") ∧
    ((checkAndUpdate [("a.html", "h1")] "a.html" "h2").1 = false →
      (checkAndUpdate [("a.html", "h1")] "a.html" "h2").2 = [("a.html", "h1")]) ∧
    (∀ k : String, k ≠ "a.html" →
      lookupAssoc (checkAndUpdate [("a.html", "h1")] "a.html" "h2").2 k
        = lookupAssoc [("a.html", "h1")] k)) :=
  ⟨by decide, c1_checkAndUpdate_correct [("a.html", "h1")] "a.html" "h2" (by decide)⟩

/-! ## C2 — when the batch is swapped out -/

/-- C2 counterexample: in `traceC2` the timer fires at t=5000, handing
the batch to the upload pipeline; `b.html` is inserted at t=5200 — after
the hand-off — yet it appears in the drained batch recorded at t=5800
and not in the new (empty) batch.  This refutes the claim that the batch
is swapped out atomically at the moment it is handed to the uploader and
that a path inserted after the swap lands only in the new batch. -/
theorem c2_counterexample :
    (run cfgDemo traceC2).drains
      = [(5800, [("/proj/src/a.html", "/a.html"),
                 ("/proj/src/b.html", "/b.html")])] ∧
    (run cfgDemo traceC2).updates = [] := by
  decide

/-- C2 amended: the batch is *not* swapped out when the timer hands it to
the upload pipeline; it keeps accumulating until the connection-ready
callback runs.  That single callback records exactly the batch
accumulated by drain time (including paths inserted after the timer
fired), issues one transfer per entry, and leaves the fresh batch empty;
and no later change ever edits an already-recorded drain.  Hence no path
present at drain time is lost, and none appears in both the drained
batch and the next one. -/
theorem c2_amended_swap_at_drain (cfg : Config) (t id : Nat) (s : SyncState)
    (hid : id ∈ s.pendingConns) :
    (handleConnReady cfg t id s).updates = [] ∧
    (handleConnReady cfg t id s).drains = s.drains ++ [(t, s.updates)] ∧
    (∀ e ∈ s.updates,
      (t, e.1, cfg.remotePath ++ e.2) ∈ (handleConnReady cfg t id s).transfers) ∧
    (∀ (cfg2 : Config) (t2 : Nat) (p2 h2 : String) (s2 : SyncState),
      (handleChange cfg2 t2 p2 h2 s2).drains = s2.drains) := by
  refine ⟨handleConnReady_updates cfg t id s hid,
    handleConnReady_drains cfg t id s hid, ?_,
    fun cfg2 t2 p2 h2 s2 => (handleChange_frame cfg2 t2 p2 h2 s2).1⟩
  intro e he
  rw [handleConnReady_transfers cfg t id s hid]
  apply List.mem_append_right
  rw [drainLoop_fst, List.map_map]
  exact List.mem_map.mpr ⟨e, he, rfl⟩

/-- Witness for the amended C2 at a concrete pending drain. -/
theorem c2_amended_swap_at_drain_witness :
    (1 ∈ stateW2.pendingConns) ∧
    ((handleConnReady cfgDemo 5800 1 stateW2).updates = [] ∧
     (handleConnReady cfgDemo 5800 1 stateW2).drains
       = stateW2.drains ++ [(5800, stateW2.updates)] ∧
     (∀ e ∈ stateW2.updates,
       (5800, e.1, cfgDemo.remotePath ++ e.2)
         ∈ (handleConnReady cfgDemo 5800 1 stateW2).transfers) ∧
     (∀ (cfg2 : Config) (t2 : Nat) (p2 h2 : String) (s2 : SyncState),
       (handleChange cfg2 t2 p2 h2 s2).drains = s2.drains)) :=
  ⟨by decide, c2_amended_swap_at_drain cfgDemo 5800 1 stateW2 (by decide)⟩

/-! ## C3 — readiness gating -/

/-- C3: for every trace in which the watcher ready signal never fires,
every event's fingerprint is stored in the ledger (the ledger is exactly
the fold of the check-and-update over the change events, and one more
pre-ready change for path `p` with hash `h` leaves `some h` stored under
`p`'s relative path), while no path is added to any batch, no debounce
timer is armed, no connection is constructed, and no drain or transfer
ever occurs. -/
theorem c3_readiness_gating (cfg : Config) (trace : List (Nat × Ev))
    (hnr : ∀ e ∈ trace, e.2 ≠ Ev.ready) :
    (run cfg trace).hashes = ledgerFold cfg trace [] ∧
    (run cfg trace).updates = [] ∧
    (run cfg trace).timeout = none ∧
    (run cfg trace).drains = [] ∧
    (run cfg trace).transfers = [] ∧
    (run cfg trace).connsCreated = 0 ∧
    (∀ (t : Nat) (p h : String),
      lookupAssoc (run cfg (trace ++ [(t, Ev.change p h)])).hashes
        (getRelativePath cfg.localPath p) = some h) := by
  have hrun : run cfg trace = { initState with hashes := ledgerFold cfg trace [] } :=
    foldl_step_no_ready cfg trace initState rfl rfl rfl hnr
  refine ⟨by rw [hrun], by rw [hrun]; rfl, by rw [hrun]; rfl, by rw [hrun]; rfl,
    by rw [hrun]; rfl, by rw [hrun]; rfl, ?_⟩
  intro t p h
  rw [run_append_single, step_change_eq, hrun,
    fireTimerIfDue_none t _ rfl, handleChange_hashes]
  exact lookup_checkAndUpdate_self _ _ _

/-- Witness for C3: a single pre-ready change event. -/
theorem c3_readiness_gating_witness :
    (∀ e ∈ ([(0, Ev.change "/proj/src/app.js" "h1")] : List (Nat × Ev)),
      e.2 ≠ Ev.ready) ∧
    ((run cfgDemo [(0, Ev.change "/proj/src/app.js" "h1")]).hashes
        = ledgerFold cfgDemo [(0, Ev.change "/proj/src/app.js" "h1")] [] ∧
     (run cfgDemo [(0, Ev.change "/proj/src/app.js" "h1")]).updates = [] ∧
     (run cfgDemo [(0, Ev.change "/proj/src/app.js" "h1")]).timeout = none ∧
     (run cfgDemo [(0, Ev.change "/proj/src/app.js" "h1")]).drains = [] ∧
     (run cfgDemo [(0, Ev.change "/proj/src/app.js" "h1")]).transfers = [] ∧
     (run cfgDemo [(0, Ev.change "/proj/src/app.js" "h1")]).connsCreated = 0 ∧
     (∀ (t : Nat) (p h : String),
       lookupAssoc
         (run cfgDemo
           ([(0, Ev.change "/proj/src/app.js" "h1")] ++ [(t, Ev.change p h)])).hashes
         (getRelativePath cfgDemo.localPath p) = some h)) :=
  ⟨by decide,
   c3_readiness_gating cfgDemo [(0, Ev.change "/proj/src/app.js" "h1")] (by decide)⟩

/-! ## C4 — the debounce window -/

/-- C4 counterexample: in `traceC4` a qualifying change to `two.css`
happens at t=5500, yet the whole batch — `two.css` included — is drained
at t=6000 by the connection the earlier timer expiry created, i.e. only
500 ms after the last qualifying change.  This refutes the claim that the
batch is drained only after a full 5000 ms window elapses with no
intervening qualifying change. -/
theorem c4_counterexample :
    (run cfgDemo traceC4).drains
      = [(6000, [("/proj/src/one.css", "/one.css"),
                 ("/proj/src/two.css", "/two.css")])] ∧
    6000 < 5500 + 5000 := by
  decide

/-- C4 amended: every qualifying change after readiness overwrites the
armed debounce timer with a fresh full window of hard-coded 5000 ms (no
configuration value is read for it), so the *timer* fires only after a
full window of quiescence: in the two-change scenario (changes at t=0
and t=4999) no drain can be recorded before t=9999, whatever the
connection-ready time.  The drain itself, however, is not in general
delayed a full window past the last change (see the counterexample with
a connection pending from an earlier expiry). -/
theorem c4_amended_debounce_rearm (cfg : Config) (t : Nat) (p h : String)
    (s : SyncState) (hready : s.watcher_ready = true)
    (hreal : (checkAndUpdate s.hashes (getRelativePath cfg.localPath p) h).1 = true) :
    (handleChange cfg t p h s).timeout = some (t + 5000) ∧
    (∀ tc : Nat,
      ∀ d ∈ (run cfgDemo (firstBurstC4 ++ [(tc, Ev.connReady 1)])).drains,
        9999 ≤ d.1) := by
  constructor
  · unfold handleChange
    rw [hreal, hready]
    simp
  · intro tc d hd
    have hburst : run cfgDemo firstBurstC4 = stateC4 := by decide
    rw [run_append_single, hburst, step_connReady_eq] at hd
    by_cases htc : 9999 ≤ tc
    · rw [fireTimerIfDue_due tc stateC4 9999 rfl htc] at hd
      rw [handleConnReady_drains cfgDemo tc 1 _ (by decide)] at hd
      simp only [stateC4, List.nil_append, List.mem_singleton] at hd
      rw [hd]
      exact htc
    · rw [fireTimerIfDue_not_due tc stateC4 9999 rfl htc,
        handleConnReady_not_pending cfgDemo tc 1 stateC4 (by decide)] at hd
      simp [stateC4] at hd

/-- Witness for the amended C4: a qualifying change at t=42 in the
just-ready initial state. -/
theorem c4_amended_debounce_rearm_witness :
    stateW4.watcher_ready = true ∧
    (checkAndUpdate stateW4.hashes
      (getRelativePath cfgDemo.localPath "/proj/src/app.css") "h1").1 = true ∧
    ((handleChange cfgDemo 42 "/proj/src/app.css" "h1" stateW4).timeout
        = some (42 + 5000) ∧
     (∀ tc : Nat,
       ∀ d ∈ (run cfgDemo (firstBurstC4 ++ [(tc, Ev.connReady 1)])).drains,
         9999 ≤ d.1)) :=
  ⟨rfl, by decide,
   c4_amended_debounce_rearm cfgDemo 42 "/proj/src/app.css" "h1" stateW4 rfl (by decide)⟩

/-! ## C5 — read failures during hashing -/

/-- C5 counterexample: a concrete stream that delivers one data chunk and
then fails mid-read.  The callback is never invoked (no error value — or
any value — reaches the caller) and the error escapes as an uncaught
exception, refuting the claim that read failures are signaled to the
caller and that no core error propagates as an uncaught crash. -/
theorem c5_counterexample :
    runGetHash (fun _ => "9e107d9d372bb6826bd81d3542a419d6")
        [StreamEvent.data [104, 105], StreamEvent.streamError] []
      = { callbackResult := none, uncaughtException := true } := by
  rfl

/-- C5 amended: `getHash` registers listeners only for `data` and `end`.
On a clean end the callback receives the digest of all accumulated
chunks; but a mid-read failure is never signaled to the caller — the
callback does not run — and the un-listened `error` event escapes as an
uncaught exception (which crashes a Node process). -/
theorem c5_amended_read_error_uncaught (digest : List (List Nat) → String)
    (chunks acc : List (List Nat)) :
    runGetHash digest (chunks.map StreamEvent.data ++ [StreamEvent.streamError]) acc
      = { callbackResult := none, uncaughtException := true } ∧
    runGetHash digest (chunks.map StreamEvent.data ++ [StreamEvent.streamEnd]) acc
      = { callbackResult := some (digest (acc ++ chunks)),
          uncaughtException := false } ∧
    "error" ∉ getHashListeners := by
  refine ⟨?_, ?_, by decide⟩
  · induction chunks generalizing acc with
    | nil => rfl
    | cons c cs ih =>
      simp only [List.map_cons, List.cons_append]
      exact ih (acc ++ [c])
  · induction chunks generalizing acc with
    | nil => simp [runGetHash]
    | cons c cs ih =>
      simp only [List.map_cons, List.cons_append]
      rw [show runGetHash digest
          (StreamEvent.data c :: (cs.map StreamEvent.data ++ [StreamEvent.streamEnd])) acc
          = runGetHash digest (cs.map StreamEvent.data ++ [StreamEvent.streamEnd])
              (acc ++ [c]) from rfl]
      rw [ih (acc ++ [c])]
      simp

/-! ## C6 — partial-failure isolation in the drain -/

/-- C6: for every batch and transfer-outcome oracle, the drain loop
issues exactly one transfer attempt per batch entry — every entry is
attempted regardless of which transfers fail — and each failing file is
reported individually in the error log, so a single failure never aborts
the remaining transfers and the drain runs to completion. -/
theorem c6_partial_failure_isolation (remotePath : String)
    (fails : String → Bool) (updates : List (String × String)) :
    (drainLoop remotePath fails updates).1.length = updates.length ∧
    (∀ e ∈ updates,
      (e.1, remotePath ++ e.2) ∈ (drainLoop remotePath fails updates).1) ∧
    (drainLoop remotePath fails updates).2
      = (updates.filter (fun e => fails e.1)).map Prod.fst := by
  refine ⟨?_, ?_, drainLoop_snd remotePath fails updates⟩
  · rw [drainLoop_fst]
    exact List.length_map _ _
  · intro e he
    rw [drainLoop_fst]
    exact List.mem_map.mpr ⟨e, he, rfl⟩

/-- Witness for C6: a three-file batch whose second file fails. -/
theorem c6_partial_failure_isolation_witness :
    (drainLoop "/var/www/app" failsTwo
        [("/proj/src/one.css", "/one.css"), ("/proj/src/two.css", "/two.css"),
         ("/proj/src/three.css", "/three.css")]).1.length
      = ([("/proj/src/one.css", "/one.css"), ("/proj/src/two.css", "/two.css"),
          ("/proj/src/three.css", "/three.css")] : List (String × String)).length ∧
    (∀ e ∈ ([("/proj/src/one.css", "/one.css"), ("/proj/src/two.css", "/two.css"),
             ("/proj/src/three.css", "/three.css")] : List (String × String)),
      (e.1, "/var/www/app" ++ e.2)
        ∈ (drainLoop "/var/www/app" failsTwo
            [("/proj/src/one.css", "/one.css"), ("/proj/src/two.css", "/two.css"),
             ("/proj/src/three.css", "/three.css")]).1) ∧
    (drainLoop "/var/www/app" failsTwo
        [("/proj/src/one.css", "/one.css"), ("/proj/src/two.css", "/two.css"),
         ("/proj/src/three.css", "/three.css")]).2
      = (([("/proj/src/one.css", "/one.css"), ("/proj/src/two.css", "/two.css"),
           ("/proj/src/three.css", "/three.css")] : List (String × String)).filter
          (fun e => failsTwo e.1)).map Prod.fst :=
  c6_partial_failure_isolation "/var/www/app" failsTwo
    [("/proj/src/one.css", "/one.css"), ("/proj/src/two.css", "/two.css"),
     ("/proj/src/three.css", "/three.css")]

/-! ## C7 — remote destination paths -/

/-- C7: every issued transfer's remote destination is the remote root
concatenated with the relative path of its local source (the local path
with the local root removed and backslashes converted to forward
slashes); concretely, with local root `/proj/src` and remote root
`/var/www/app`, changes to `index.html` at t=0 and t=2000 produce
exactly one transfer of `/proj/src/index.html` to
`/var/www/app/index.html` (at t=7000), and a Windows-style path has its
separators normalized. -/
theorem c7_remote_destination (cfg : Config) (trace : List (Nat × Ev)) :
    (∀ tr ∈ (run cfg trace).transfers,
      tr.2.2 = cfg.remotePath ++ getRelativePath cfg.localPath tr.2.1) ∧
    (run cfgDemo trace7).transfers
      = [(7000, "/proj/src/index.html", "/var/www/app/index.html")] ∧
    getRelativePath "C:\\proj" "C:\\proj\\sub\\index.html" = "/sub/index.html" := by
  refine ⟨(pathsConsistent_run cfg trace).2, by decide, by decide⟩

/-- Witness for C7: the single transfer of the concrete scenario
satisfies the destination equation. -/
theorem c7_remote_destination_witness :
    ((7000, "/proj/src/index.html", "/var/www/app/index.html")
        ∈ (run cfgDemo trace7).transfers) ∧
    ((7000, "/proj/src/index.html",
        "/var/www/app/index.html") : Nat × String × String).2.2
      = cfgDemo.remotePath
          ++ getRelativePath cfgDemo.localPath "/proj/src/index.html" :=
  ⟨by decide,
   (c7_remote_destination cfgDemo trace7).1
     (7000, "/proj/src/index.html", "/var/www/app/index.html") (by decide)⟩

/-! ## C8 — connection retry behaviour -/

/-- C8: on every connection error the handler marks the connection not
ready, emits exactly one retry line whose glyph is the spinner entry
selected by the attempt count modulo 4 (the glyph cycle has period 4 and
the index is always in range of the four glyphs), increments the attempt
counter, and immediately issues another connect call; on reaching ready
the attempt counter resets to 0; and retries are unbounded: `n`
consecutive errors from a fresh connection leave attempt count `n` and
`n + 1` connect calls, for every `n`. -/
theorem c8_connection_retry (s : ConnState) (a n : Nat) :
    ((connOnError s).sftp_ready = false ∧
     (connOnError s).output = s.output ++ [spinnerLine s.attempts] ∧
     (connOnError s).attempts = s.attempts + 1 ∧
     (connOnError s).connectCalls = s.connectCalls + 1) ∧
    (spinnerLine a
      = "Unable to communicate with sftp server. Retrying "
          ++ spinner.getD (a % 4) "" ++ "\x1b[0G" ∧
     a % 4 < spinner.length ∧
     spinnerLine (a + 4) = spinnerLine a) ∧
    ((connOnReady s).attempts = 0 ∧ (connOnReady s).sftp_ready = true) ∧
    ((connOnError^[n] connInit).attempts = n ∧
     (connOnError^[n] connInit).connectCalls = n + 1) := by
  refine ⟨⟨rfl, rfl, rfl, rfl⟩, ⟨rfl, ?_, ?_⟩, ⟨rfl, rfl⟩, ?_⟩
  · show a % 4 < spinner.length
    exact Nat.mod_lt a (by norm_num)
  · unfold spinnerLine
    rw [Nat.add_mod_right]
  · induction n with
    | zero => exact ⟨rfl, rfl⟩
    | succ m ih =>
      rw [Function.iterate_succ_apply']
      exact ⟨by rw [show (connOnError (connOnError^[m] connInit)).attempts
          = (connOnError^[m] connInit).attempts + 1 from rfl, ih.1],
        by rw [show (connOnError (connOnError^[m] connInit)).connectCalls
          = (connOnError^[m] connInit).connectCalls + 1 from rfl, ih.2]⟩

/-! ## C9 — the connection singleton -/

/-- C9 counterexample: in `traceC9` two separate bursts produce two
drains, and the process has by then constructed two distinct connection
objects — the timer callback calls `connectToSFTPServer()` anew on every
expiry — refuting the claim of exactly one process-wide connection
instance reused by every drain. -/
theorem c9_counterexample :
    (run cfgDemo traceC9).connsCreated = 2 ∧
    (run cfgDemo traceC9).drains.length = 2 := by
  decide

/-- C9 amended: every due timer expiry constructs a fresh connection
object — the construction count grows by one and the new connection id
joins the pending list — and each constructed connection starts with its
own retry counter at 0 and one immediate connect call.  Drains therefore
use a per-drain connection, not a shared process-wide instance. -/
theorem c9_amended_fresh_connection_per_drain (t tf : Nat) (s : SyncState)
    (htm : s.timeout = some tf) (hdue : tf ≤ t) :
    (fireTimerIfDue t s).connsCreated = s.connsCreated + 1 ∧
    (fireTimerIfDue t s).pendingConns = s.pendingConns ++ [s.connsCreated + 1] ∧
    connInit.attempts = 0 ∧ connInit.connectCalls = 1 := by
  rw [fireTimerIfDue_due t s tf htm hdue]
  exact ⟨rfl, rfl, rfl, rfl⟩

/-- Witness for the amended C9: a timer armed for t=3 firing at t=5. -/
theorem c9_amended_fresh_connection_per_drain_witness :
    stateW9.timeout = some 3 ∧ 3 ≤ 5 ∧
    ((fireTimerIfDue 5 stateW9).connsCreated = stateW9.connsCreated + 1 ∧
     (fireTimerIfDue 5 stateW9).pendingConns
       = stateW9.pendingConns ++ [stateW9.connsCreated + 1] ∧
     connInit.attempts = 0 ∧ connInit.connectCalls = 1) :=
  ⟨rfl, by decide, c9_amended_fresh_connection_per_drain 5 3 stateW9 rfl (by decide)⟩

/-! ## C10 — the ledger is written only at event time -/

/-- C10: the ledger is written only by the change handler at event time:
the timer callback and the drain — under every per-file outcome oracle,
so in particular when transfers fail — leave `hashes` untouched; and
re-processing the same path with an unchanged hash (e.g. the next
notification for a file whose transfer failed) is a complete no-op, so
the failed file produces no new batch entry until its content changes.
The hypothesis reflects that hashes are md5 hex digests, never empty. -/
theorem c10_ledger_frame (cfg : Config) (t t2 : Nat) (id : Nat) (p h : String)
    (s : SyncState) (hh : h ≠ "") :
    (handleConnReady cfg t id s).hashes = s.hashes ∧
    (fireTimerIfDue t s).hashes = s.hashes ∧
    handleChange cfg t2 p h (handleChange cfg t p h s)
      = handleChange cfg t p h s := by
  refine ⟨handleConnReady_hashes cfg t id s, (fireTimerIfDue_frame t s).1, ?_⟩
  have hlook : lookupAssoc (handleChange cfg t p h s).hashes
      (getRelativePath cfg.localPath p) = some h := by
    rw [handleChange_hashes]
    exact lookup_checkAndUpdate_self _ _ _
  exact handleChange_stored_noop cfg t2 p h (handleChange cfg t p h s) hh hlook

/-- Witness for C10: a change processed twice with the same hash from the
initial state, alongside a drain and a timer check. -/
theorem c10_ledger_frame_witness :
    ("deadbeef" : String) ≠ "" ∧
    ((handleConnReady cfgDemo 0 1 initState).hashes = initState.hashes ∧
     (fireTimerIfDue 0 initState).hashes = initState.hashes ∧
     handleChange cfgDemo 1 "/proj/src/x.js" "deadbeef"
         (handleChange cfgDemo 0 "/proj/src/x.js" "deadbeef" initState)
       = handleChange cfgDemo 0 "/proj/src/x.js" "deadbeef" initState) :=
  ⟨by decide,
   c10_ledger_frame cfgDemo 0 1 1 "/proj/src/x.js" "deadbeef" initState (by decide)⟩

end RemoteSync
